import Mathlib

/-!
Verification development for the in-the-loop repository.

The repository consists of a React/TypeScript frontend (src/types.ts and
components), a bash CLI wrapper (scripts/loop-track.sh, present in three
revisions), and markdown documentation.  The Rust backend named by
IMPLEMENTATION_SUMMARY.md (polling.rs, local_server.rs) is not part of the
source tree; where a property is decided by that missing code we model it
from the specification, and the doc comment of the model says so.

Embedding conventions:
* a transcript file is a list of lines, each line a Lean String;
* the bash wrapper is embedded as a pure function from its external inputs
  (command text, parsed session id, exit code of the wrapped command) to the
  list of observable events it produces plus its own exit code;
* `grep -aEiq PATTERN file` is embedded by a small total matcher over
  lowercased character lists: each regex alternative becomes a list of
  pieces, a piece being a literal, a single-character wildcard (the regex
  dot) or an unbounded gap (the regex dot-star).
-/

/-- A piece of one regex alternative: a literal run of characters, the
regex dot (any single character), or dot-star (any, possibly empty, run). -/
inductive Piece
  | lit (s : List Char)
  | dot
  | gap
deriving DecidableEq

/-- Literal piece built from a string. -/
def litP (s : String) : Piece :=
  Piece.lit s.toList

/-- Match a sequence of pieces against a prefix of `cs`; trailing characters
of `cs` are allowed to remain (the search is unanchored on the right). -/
def matchPieces : List Piece → List Char → Bool
  | [], _ => true
  | Piece.lit s :: ps, cs =>
      if List.isPrefixOf s cs then matchPieces ps (cs.drop s.length) else false
  | Piece.dot :: ps, cs =>
      match cs with
      | [] => false
      | _ :: rest => matchPieces ps rest
  | Piece.gap :: ps, cs =>
      (List.range (cs.length + 1)).any (fun k => matchPieces ps (cs.drop k))

/-- An alternative matches a line if it matches starting at any position:
prepend an unbounded gap to make the search unanchored on the left. -/
def altMatchesLine (alt : List Piece) (line : List Char) : Bool :=
  matchPieces (Piece.gap :: alt) line

/-- `grep -aEiq` over one file: some line matches some alternative.
Case-insensitivity is embedded by lowercasing every line; all pattern
literals below are written in lowercase. -/
def grepFile (alternatives : List (List Piece)) (log : List String) : Bool :=
  log.any (fun line => alternatives.any
    (fun alt => altMatchesLine alt (line.toList.map Char.toLower)))

/-- The idle-prompt pattern of log_indicates_copilot_waiting
(scripts/loop-track.sh):
Type @ to mention files|/ for commands, or \? for shortcuts|waiting.*input|
what.*next|next.*task|enter.*(prompt|message)
The group (prompt|message) is expanded into two alternatives. -/
def idleAlternatives : List (List Piece) :=
  [ [litP "type @ to mention files"],
    [litP "/ for commands, or ? for shortcuts"],
    [litP "waiting", Piece.gap, litP "input"],
    [litP "what", Piece.gap, litP "next"],
    [litP "next", Piece.gap, litP "task"],
    [litP "enter", Piece.gap, litP "prompt"],
    [litP "enter", Piece.gap, litP "message"] ]

/-- The activity pattern of log_indicates_copilot_waiting
(scripts/loop-track.sh):
◐|◓|◑|◒|The user wants|I.ll explore|● Read |● List |● Summary
The regex dot in I.ll becomes Piece.dot. -/
def activityAlternatives : List (List Piece) :=
  [ [litP "◐"], [litP "◓"], [litP "◑"], [litP "◒"],
    [litP "the user wants"],
    [litP "i", Piece.dot, litP "ll explore"],
    [litP "● read "], [litP "● list "], [litP "● summary"] ]

/-- The first grep of log_indicates_copilot_waiting: does the transcript
contain an idle-prompt marker. -/
def hasIdlePromptMarker (log : List String) : Bool :=
  grepFile idleAlternatives log

/-- The second grep of log_indicates_copilot_waiting: does the transcript
contain an activity marker. -/
def hasActivityMarker (log : List String) : Bool :=
  grepFile activityAlternatives log

/-- log_indicates_copilot_waiting from scripts/loop-track.sh: sets
has_idle_prompt and has_activity from the two greps and succeeds exactly
when both flags are 1. -/
def log_indicates_copilot_waiting (log : List String) : Bool :=
  let has_idle_prompt : Nat := if hasIdlePromptMarker log then 1 else 0
  let has_activity : Nat := if hasActivityMarker log then 1 else 0
  has_idle_prompt == 1 && has_activity == 1

/-- The background monitor loop of the second revision of
scripts/loop-track.sh, run against the successive snapshots of the
append-only transcript buffer that the loop observes on its one-second
ticks.  The AUTO_COMPLETE_FLAG file starts at 0 (here `false`); when the
flag is still 0 and the heuristic fires, the loop issues one completed
update, writes 1 to the flag and breaks, so later snapshots are never
examined.  The returned list is the list of statuses the loop emits. -/
def monitorLoop : Bool → List (List String) → List String
  | _, [] => []
  | flag, buf :: rest =>
      if !flag && log_indicates_copilot_waiting buf then ["completed"]
      else monitorLoop flag rest

/-- A transcript of arbitrary control and binary bytes containing neither
marker class. -/
def binaryNoiseLog : List String :=
  ["\x00\x01\x1b[2Jrandom \x07bytes", "\x02\x7f\x1b]0;title\x07 garbage \x00"]

/-- A transcript whose marker phrases are buried in control and binary
bytes: an idle-prompt line and a spinner activity line. -/
def binaryMarkedLog : List String :=
  ["\x1b[1mType @ to mention files\x1b[0m\x00", "\x07◐ Running tools\x00\x02"]

/-- Claim C1: the Interactive-Wait Detector triggers on a transcript only
when the transcript contains both an idle-prompt marker and an activity
marker; a transcript with no activity marker, in particular one containing
only idle-prompt phrasing, never triggers. -/
theorem wait_detector_requires_both_markers (log : List String) :
    (log_indicates_copilot_waiting log = true →
      hasIdlePromptMarker log = true ∧ hasActivityMarker log = true) ∧
    (hasActivityMarker log = false → log_indicates_copilot_waiting log = false) := by
  unfold log_indicates_copilot_waiting
  cases hi : hasIdlePromptMarker log <;> cases ha : hasActivityMarker log <;> simp

/-- Witness for C1: a transcript holding only the idle-prompt help line has
no activity marker, so the detector does not trigger on it. -/
theorem wait_detector_requires_both_markers_witness :
    hasActivityMarker ["Type @ to mention files"] = false ∧
    log_indicates_copilot_waiting ["Type @ to mention files"] = false :=
  ⟨by decide,
   (wait_detector_requires_both_markers ["Type @ to mention files"]).2 (by decide)⟩

/-- Claim C2: the monitor loop is a one-shot latch.  Over any sequence of
buffer snapshots it emits the completed status exactly once when some
snapshot triggers the heuristic and never otherwise; once a snapshot
triggers, the emissions are exactly one completed regardless of the later
snapshots (which, the buffer being append-only, keep containing both marker
phrases); and it never emits more than one status. -/
theorem monitor_loop_one_shot (snaps rest : List (List String))
    (t : List String) (ht : log_indicates_copilot_waiting t = true) :
    monitorLoop false snaps =
      (if snaps.any (fun buf => log_indicates_copilot_waiting buf)
       then ["completed"] else []) ∧
    monitorLoop false (t :: rest) = ["completed"] ∧
    (monitorLoop false snaps).length ≤ 1 := by
  have key : ∀ l : List (List String), monitorLoop false l =
      (if l.any (fun buf => log_indicates_copilot_waiting buf)
       then ["completed"] else []) := by
    intro l
    induction l with
    | nil => simp [monitorLoop]
    | cons b r ih =>
        by_cases hb : log_indicates_copilot_waiting b = true
        · simp [monitorLoop, hb]
        · simp only [Bool.not_eq_true] at hb
          simp [monitorLoop, hb, ih]
  refine ⟨key snaps, ?_, ?_⟩
  · simp [monitorLoop, ht]
  · rw [key snaps]
    by_cases h : snaps.any (fun buf => log_indicates_copilot_waiting buf) = true <;> simp [h]

/-- Witness for C2: on a transcript containing both markers the loop emits
completed once and ignores the later snapshots, which repeat both phrases. -/
theorem monitor_loop_one_shot_witness :
    log_indicates_copilot_waiting ["Type @ to mention files", "◐ Running"] = true ∧
    monitorLoop false
      (["Type @ to mention files", "◐ Running"] ::
        [["Type @ to mention files", "◐ Running"],
         ["Type @ to mention files", "◐ Running"]]) = ["completed"] :=
  ⟨by decide,
   (monitor_loop_one_shot []
      [["Type @ to mention files", "◐ Running"],
       ["Type @ to mention files", "◐ Running"]]
      ["Type @ to mention files", "◐ Running"] (by decide)).2.1⟩

/-- Claim C8: the transcript matching is total over arbitrary input.  Every
transcript, including ones of arbitrary binary and control characters,
yields a trigger or no-trigger decision; a pure binary-noise transcript
yields no trigger, and best-effort text search still finds the markers when
they are surrounded by binary and control bytes. -/
theorem wait_detector_total_on_binary (log : List String) :
    (log_indicates_copilot_waiting log = false ∨
      log_indicates_copilot_waiting log = true) ∧
    log_indicates_copilot_waiting binaryNoiseLog = false ∧
    log_indicates_copilot_waiting binaryMarkedLog = true := by
  refine ⟨?_, by decide, by decide⟩
  cases log_indicates_copilot_waiting log
  · exact Or.inl rfl
  · exact Or.inr rfl

/-- An observable action of the CLI wrapper script: the registration POST
to /api/sessions, the warning printed when registration fails, the
execution of the wrapped command, or a status PATCH to /api/sessions/id. -/
inductive Event
  | post (cmd : String) (title : String)
  | warn
  | exec (cmd : String)
  | patch (sid : String) (status : String)
deriving DecidableEq

/-- Is this event a status PATCH. -/
def Event.isPatch : Event → Bool
  | Event.patch _ _ => true
  | _ => false

/-- update_session_status from scripts/loop-track.sh: issues the PATCH only
when the session id is nonempty and differs from the string error;
otherwise it performs no HTTP request at all. -/
def update_session_status (sid status : String) : List Event :=
  if sid ≠ "" ∧ sid ≠ "error" then [Event.patch sid status] else []

/-- is_interactive_copilot_command from scripts/loop-track.sh: the case
patterns copilot* and "gh copilot"* are prefix tests on the full command
string. -/
def is_interactive_copilot_command (c : String) : Bool :=
  List.isPrefixOf "copilot".toList c.toList ||
    List.isPrefixOf "gh copilot".toList c.toList

/-- The first revision of scripts/loop-track.sh (the one keeping cwd and no
monitor loop) as a function from its external inputs to its observable
events and its own exit code.  Inputs: the wrapped command text, the
SESSION_ID parsed out of the registration response (empty when parsing or
registration failed), and the exit code of the wrapped command.  The script
always POSTs the registration first, warns when the parsed id is empty or
error, PATCHes in_progress for interactive copilot commands, runs the
command, then for non-copilot commands PATCHes completed when the exit code
is 0 and failed otherwise, and finally exits with the wrapped command's
exit code. -/
def loopTrackV1 (cmd sid : String) (ec : Nat) : List Event × Nat :=
  let warnE := if sid = "" ∨ sid = "error" then [Event.warn] else []
  let preE :=
    if is_interactive_copilot_command cmd
    then update_session_status sid "in_progress" else []
  let postE :=
    if is_interactive_copilot_command cmd then []
    else if ec = 0 then update_session_status sid "completed"
    else update_session_status sid "failed"
  (Event.post cmd ("CLI: " ++ cmd) :: warnE ++ preE ++ Event.exec cmd :: postE, ec)

/-- Claim C5: the wrapper registers before executing the command (the
registration POST is the first observable event of every run), and for a
command that is not of the interactive-agent type, with a successfully
registered session, the whole run is the POST, the execution, and exactly
one terminal status PATCH classified purely from the exit code: completed
when it is 0, failed otherwise. -/
theorem loop_track_register_then_single_terminal_update
    (cmd sid : String) (ec : Nat) :
    ((loopTrackV1 cmd sid ec).1.head? = some (Event.post cmd ("CLI: " ++ cmd))) ∧
    (sid ≠ "" → sid ≠ "error" → is_interactive_copilot_command cmd = false →
      (loopTrackV1 cmd sid ec).1 =
        [Event.post cmd ("CLI: " ++ cmd), Event.exec cmd,
         Event.patch sid (if ec = 0 then "completed" else "failed")]) := by
  constructor
  · simp [loopTrackV1]
  · intro h1 h2 h3
    by_cases hec : ec = 0 <;>
      simp [loopTrackV1, update_session_status, h1, h2, h3, hec]

/-- Witness for C5: a non-copilot command with a registered session and
exit code 2 produces exactly the POST, the execution and one failed PATCH. -/
theorem loop_track_register_then_single_terminal_update_witness :
    ("cli-7" ≠ "" ∧ "cli-7" ≠ "error" ∧
      is_interactive_copilot_command "make test" = false) ∧
    (loopTrackV1 "make test" "cli-7" 2).1 =
      [Event.post "make test" ("CLI: " ++ "make test"), Event.exec "make test",
       Event.patch "cli-7" (if 2 = 0 then "completed" else "failed")] :=
  ⟨⟨by decide, by decide, by decide⟩,
   (loop_track_register_then_single_terminal_update "make test" "cli-7" 2).2
     (by decide) (by decide) (by decide)⟩

/-- Claim C6: the wrapper exits with exactly the wrapped command's exit
code, whatever the tracker did: the exit code does not depend on the
registration outcome (the parsed session id), and in particular is the same
under a failed registration as under any successful one. -/
theorem loop_track_preserves_exit_code (cmd sid sid2 : String) (ec : Nat) :
    (loopTrackV1 cmd sid ec).2 = ec ∧
    (loopTrackV1 cmd sid ec).2 = (loopTrackV1 cmd sid2 ec).2 := by
  exact ⟨rfl, rfl⟩

/-- Claim C9: update_session_status performs no HTTP request when the
session id is empty or is the string error, for every status; consequently
a run whose registration failed (parsed session id empty or error) contains
no PATCH event at all. -/
theorem update_session_status_skips_invalid_session
    (status cmd : String) (ec : Nat) :
    update_session_status "" status = [] ∧
    update_session_status "error" status = [] ∧
    (loopTrackV1 cmd "" ec).1.filter Event.isPatch = [] ∧
    (loopTrackV1 cmd "error" ec).1.filter Event.isPatch = [] := by
  refine ⟨by simp [update_session_status], by simp [update_session_status], ?_, ?_⟩ <;>
    · by_cases hc : is_interactive_copilot_command cmd = true <;>
        by_cases hec : ec = 0 <;>
          simp [loopTrackV1, update_session_status, Event.isPatch, hc, hec]

/-- ItemType from src/types.ts. -/
inductive ItemType
  | slack_thread
  | github_action
  | github_pr
  | copilot_agent
  | cli_session
  | opencode_session
deriving DecidableEq

/-- ItemStatus from src/types.ts.  The union there has nine members: the
eight lifecycle values and, additionally, the value archived. -/
inductive ItemStatus
  | waiting
  | in_progress
  | input_needed
  | updated
  | approved
  | merged
  | completed
  | failed
  | archived
deriving DecidableEq

/-- Item from src/types.ts.  The metadata payload, Record of string to any
in the source, is embedded as a finite map from string keys to string
values (the two keys the repository reads from it, opencode_url and
session_id, hold strings). -/
structure Item where
  id : String
  type : ItemType
  title : String
  url : Option String := none
  status : ItemStatus
  previous_status : Option ItemStatus := none
  metadata : List (String × String)
  last_checked_at : Option String := none
  last_updated_at : Option String := none
  created_at : String
  archived : Bool
  archived_at : Option String := none
  polling_interval_override : Option Nat := none
  checked : Bool
deriving DecidableEq

/-- The eight status values that the claim C3 (and spec section 3) allow. -/
def specStatusValues : List ItemStatus :=
  [ItemStatus.waiting, ItemStatus.in_progress, ItemStatus.input_needed,
   ItemStatus.updated, ItemStatus.approved, ItemStatus.merged,
   ItemStatus.completed, ItemStatus.failed]

/-- An item whose status field holds the ninth status value archived, as
src/components/Dashboard.tsx compares for (status === archived) while its
archived flag is false. -/
def archivedStatusItem : Item :=
  { id := "item-1", type := ItemType.cli_session, title := "CLI: make",
    url := none, status := ItemStatus.archived, previous_status := none,
    metadata := [], last_checked_at := none, last_updated_at := none,
    created_at := "2024-01-01T00:00:00Z", archived := false,
    archived_at := none, polling_interval_override := none, checked := false }

/-- Counterexample to C3: archived is a constructible status value, and an
item carrying it has a status outside the eight-value enumeration the
claim states. -/
theorem archived_status_constructible :
    archivedStatusItem.status = ItemStatus.archived ∧
    archivedStatusItem.status ∉ specStatusValues := by
  decide

/-- Claim C3 as amended: every item's status belongs to the nine-value
enumeration that adds archived to the eight lifecycle values, and the
archived flag is a separate boolean field, orthogonal to status: setting
the flag never changes the status field. -/
theorem item_status_nine_values_and_flag_orthogonal (i : Item) (b : Bool) :
    (i.status ∈ specStatusValues ∨ i.status = ItemStatus.archived) ∧
    ({ i with archived := b } : Item).status = i.status ∧
    ({ i with archived := b } : Item).archived = b := by
  refine ⟨?_, rfl, rfl⟩
  cases i.status <;> simp [specStatusValues]

/-- JavaScript truthiness of an optional string field read off a metadata
record: undefined and the empty string are falsy. -/
def jsTruthyStr : Option String → Bool
  | none => false
  | some s => s ≠ ""

/-- getOpenCodeSessionUrl from src/components/ItemCard.tsx: null unless the
item is an opencode_session; reads opencode_url and session_id from the
metadata; null when either is falsy; otherwise the template string
baseUrl/session/sessionId. -/
def getOpenCodeSessionUrl (item : Item) : Option String :=
  if item.type ≠ ItemType.opencode_session then none
  else
    let baseUrl := item.metadata.lookup "opencode_url"
    let sessionId := item.metadata.lookup "session_id"
    if !(jsTruthyStr baseUrl) || !(jsTruthyStr sessionId) then none
    else some ((baseUrl.getD "") ++ "/session/" ++ (sessionId.getD ""))

/-- An opencode_session item whose metadata contains both keys but with an
empty opencode_url value. -/
def emptyUrlItem : Item :=
  { id := "item-2", type := ItemType.opencode_session, title := "OpenCode",
    url := none, status := ItemStatus.in_progress, previous_status := none,
    metadata := [("opencode_url", ""), ("session_id", "sess-1")],
    last_checked_at := none, last_updated_at := none,
    created_at := "2024-01-01T00:00:00Z", archived := false,
    archived_at := none, polling_interval_override := none, checked := false }

/-- Counterexample to C10: an opencode_session item whose metadata contains
both opencode_url and session_id, yet getOpenCodeSessionUrl returns null
rather than the concatenation, because the contained opencode_url value is
the empty string and so is falsy. -/
theorem getOpenCodeSessionUrl_contains_both_yet_null :
    emptyUrlItem.type = ItemType.opencode_session ∧
    (emptyUrlItem.metadata.lookup "opencode_url").isSome = true ∧
    (emptyUrlItem.metadata.lookup "session_id").isSome = true ∧
    getOpenCodeSessionUrl emptyUrlItem = none ∧
    getOpenCodeSessionUrl emptyUrlItem ≠ some ("" ++ "/session/" ++ "sess-1") := by
  decide

/-- Claim C10 as amended: getOpenCodeSessionUrl is total; it returns null
for every item whose type is not opencode_session, and for opencode_session
items it returns null unless the metadata contains both opencode_url and
session_id with non-empty values, in which case it returns
opencode_url ++ "/session/" ++ session_id. -/
theorem getOpenCodeSessionUrl_characterization (item : Item) :
    getOpenCodeSessionUrl item =
      (if item.type = ItemType.opencode_session then
        match item.metadata.lookup "opencode_url",
              item.metadata.lookup "session_id" with
        | some u, some s =>
            if u = "" ∨ s = "" then none
            else some (u ++ "/session/" ++ s)
        | some _, none => none
        | none, _ => none
       else none) := by
  by_cases ht : item.type = ItemType.opencode_session
  · cases hu : item.metadata.lookup "opencode_url" <;>
      cases hs : item.metadata.lookup "session_id" <;>
        simp only [getOpenCodeSessionUrl, ht, hu, hs, jsTruthyStr, ite_true,
          if_neg (by simp [ht] : ¬ item.type ≠ ItemType.opencode_session)]
    · simp
    · simp
    · simp
    · rename_i u s
      by_cases hue : u = "" <;> by_cases hse : s = "" <;>
        simp [hue, hse, Option.getD]
  · simp [getOpenCodeSessionUrl, ht]

/-- Error taxonomy of the Session Ingestion endpoint relevant here. -/
inductive IngestError
  | notFound
deriving DecidableEq

/-- Modelled from the spec: the Session Ingestion server
(src-tauri/src/local_server.rs named by IMPLEMENTATION_SUMMARY.md) is not
in the source tree.  Helper for updateStatus: set the status stored under a
registered session id, leaving every other entry unchanged. -/
def setStatus : List (String × ItemStatus) → String → ItemStatus →
    List (String × ItemStatus)
  | [], _, _ => []
  | (k, v) :: rest, id, s =>
      if k = id then (k, s) :: rest else (k, v) :: setStatus rest id s

/-- Modelled from the spec: the Session Ingestion server
(src-tauri/src/local_server.rs named by IMPLEMENTATION_SUMMARY.md) is not
in the source tree.  updateStatus(sessionId, status) per section 4.5: fails
with NotFound when the id is unknown, otherwise records the status for that
session; the session table is the observable state. -/
def updateStatus (sessions : List (String × ItemStatus)) (id : String)
    (s : ItemStatus) : Except IngestError (List (String × ItemStatus)) :=
  if (sessions.lookup id).isSome then Except.ok (setStatus sessions id s)
  else Except.error IngestError.notFound

theorem lookup_setStatus_self (l : List (String × ItemStatus)) (id : String)
    (s : ItemStatus) (h : (l.lookup id).isSome = true) :
    (setStatus l id s).lookup id = some s := by
  induction l with
  | nil => simp [List.lookup] at h
  | cons kv rest ih =>
      obtain ⟨k, v⟩ := kv
      by_cases hk : k = id
      · simp [setStatus, hk, List.lookup]
      · have hik : (id == k) = false := by
          simp [beq_iff_eq]
          exact fun he => hk he.symm
        simp only [List.lookup, hik, cond_false] at h
        simp [setStatus, hk, List.lookup, hik, ih h]

theorem setStatus_setStatus (l : List (String × ItemStatus)) (id : String)
    (s : ItemStatus) : setStatus (setStatus l id s) id s = setStatus l id s := by
  induction l with
  | nil => simp [setStatus]
  | cons kv rest ih =>
      obtain ⟨k, v⟩ := kv
      by_cases hk : k = id
      · simp [setStatus, hk]
      · simp [setStatus, hk, ih]

/-- Claim C4: updateStatus is idempotent.  For a registered session id,
running updateStatus(id, completed) and then running the identical update
on the resulting state gives exactly the state of the single update: the
repeat succeeds and changes nothing observable. -/
theorem updateStatus_completed_idempotent
    (sessions : List (String × ItemStatus)) (id : String)
    (h : (sessions.lookup id).isSome = true) :
    Except.bind (updateStatus sessions id ItemStatus.completed)
        (fun st => updateStatus st id ItemStatus.completed) =
      updateStatus sessions id ItemStatus.completed := by
  simp only [updateStatus, h, if_pos, Except.bind,
    lookup_setStatus_self sessions id ItemStatus.completed h, Option.isSome_some,
    setStatus_setStatus]

/-- Witness for C4: a concrete one-session table, its id registered; the
double update equals the single update. -/
theorem updateStatus_completed_idempotent_witness :
    (([("sess-1", ItemStatus.waiting)].lookup "sess-1").isSome = true) ∧
    Except.bind (updateStatus [("sess-1", ItemStatus.waiting)] "sess-1"
          ItemStatus.completed)
        (fun st => updateStatus st "sess-1" ItemStatus.completed) =
      updateStatus [("sess-1", ItemStatus.waiting)] "sess-1"
        ItemStatus.completed :=
  ⟨by decide,
   updateStatus_completed_idempotent [("sess-1", ItemStatus.waiting)] "sess-1"
     (by decide)⟩

/-- Modelled from the spec: the Poll Scheduler (src-tauri/src/polling.rs
named by IMPLEMENTATION_SUMMARY.md) is not in the source tree.  Section 4.3
has the effective interval be the per-item override when set, else the
global configured interval. -/
def effectiveInterval (globalInterval : Nat) (override : Option Nat) : Nat :=
  override.getD globalInterval

/-- Modelled from the spec: a fetch attempt for one polled item either
succeeds or fails transiently (timeout, 5xx, rate-limit), section 4.2. -/
inductive FetchOutcome
  | success
  | transientError
deriving DecidableEq

/-- Modelled from the spec: the consecutive_failure_count of an item's
scheduling record after one fetch outcome, section 3 and section 7 — a
transient error increments the failure counter, a success resets it (the
backoff multiplier is reset to one on the next success, section 4.3). -/
def consecutiveFailuresAfter : Nat → FetchOutcome → Nat
  | _, FetchOutcome.success => 0
  | n, FetchOutcome.transientError => n + 1

/-- Modelled from the spec: the consecutive_failure_count after a sequence
of fetch outcomes for one item, starting from a given count. -/
def runOutcomes (start : Nat) (outs : List FetchOutcome) : Nat :=
  outs.foldl consecutiveFailuresAfter start

/-- Modelled from the spec: the Poll Scheduler (src-tauri/src/polling.rs
named by IMPLEMENTATION_SUMMARY.md) is not in the source tree.  Section 4.3:
on any completion next_due_at is recomputed as now plus the effective
interval; on repeated transient failures an exponential backoff multiplier
is applied to the interval, capped at a ceiling, and reset to one on the
next success.  The multiplier is embedded as two to the power of the
consecutive transient failure count, the cap as a fixed ceiling on the
resulting interval; at count zero the multiplier is one. -/
def nextScheduledInterval (globalInterval : Nat) (override : Option Nat)
    (ceiling : Nat) (consecutiveFailures : Nat) : Nat :=
  min (effectiveInterval globalInterval override * 2 ^ consecutiveFailures)
    ceiling

/-- Claim C7: three consecutive transient outcomes drive the failure count
to 3, and for every count of at least 3 the backoff multiplier makes the
next scheduled interval strictly exceed the nominal configured interval
while staying capped at the fixed ceiling; the next success resets the
count, and with it the multiplier to one, so the interval returns to the
nominal configured interval.  Stated for a positive nominal interval and a
ceiling above it. -/
theorem scheduler_backoff_after_transient_failures
    (g ceiling f : Nat) (hg : 0 < g) (hc : g < ceiling) (hf : 3 ≤ f) :
    runOutcomes 0 [FetchOutcome.transientError, FetchOutcome.transientError,
        FetchOutcome.transientError] = 3 ∧
    g < nextScheduledInterval g none ceiling f ∧
    nextScheduledInterval g none ceiling f ≤ ceiling ∧
    consecutiveFailuresAfter f FetchOutcome.success = 0 ∧
    nextScheduledInterval g none ceiling
        (consecutiveFailuresAfter f FetchOutcome.success) = g := by
  have h8 : (8 : Nat) ≤ 2 ^ f := by
    calc (8 : Nat) = 2 ^ 3 := by norm_num
      _ ≤ 2 ^ f := Nat.pow_le_pow_right (by norm_num) hf
  have hmul : g * 8 ≤ g * 2 ^ f := Nat.mul_le_mul_left g h8
  have hlt : g < g * 2 ^ f := lt_of_lt_of_le (by omega) hmul
  refine ⟨by decide, ?_, ?_, rfl, ?_⟩
  · exact lt_min (by simpa [effectiveInterval] using hlt) hc
  · exact min_le_right _ _
  · simp [nextScheduledInterval, consecutiveFailuresAfter, effectiveInterval,
      Nat.min_eq_left (Nat.le_of_lt hc)]

/-- Witness for C7: nominal interval 30, ceiling 300; after 3 consecutive
transient failures the interval is strictly above 30 and at most 300, and
the next success restores 30. -/
theorem scheduler_backoff_after_transient_failures_witness :
    (0 < 30 ∧ 30 < 300 ∧ 3 ≤ 3) ∧
    (runOutcomes 0 [FetchOutcome.transientError, FetchOutcome.transientError,
        FetchOutcome.transientError] = 3 ∧
     30 < nextScheduledInterval 30 none 300 3 ∧
     nextScheduledInterval 30 none 300 3 ≤ 300 ∧
     consecutiveFailuresAfter 3 FetchOutcome.success = 0 ∧
     nextScheduledInterval 30 none 300
         (consecutiveFailuresAfter 3 FetchOutcome.success) = 30) :=
  ⟨⟨by decide, by decide, by decide⟩,
   scheduler_backoff_after_transient_failures 30 300 3 (by decide) (by decide)
     (by decide)⟩
